import Mathlib

/-!
# Verification of the auth-service credential and session lifecycle engine

A shallow embedding of the Rust `auth-service` crate: the domain types
(`Email`, `Password`, `User`, `LoginAttemptId`, `TwoFACode`), the in-memory
stores (`HashmapUserStore`, `HashsetBannedTokenStore`,
`HashmapTwoFACodeStore`), the Postgres-backed user store's password hashing
helpers, the token validation helper (`validate_token`) and the route
handlers (`login`, `logout`, `verify_2fa`).

External library calls (Argon2 hashing, JWT decoding, UUID parsing, the
Redis/Postgres connections) are modelled as function parameters; everything
the repository itself implements is translated directly from the source.
Rust `HashMap`/`HashSet` state is modelled as association lists / lists with
the map/set operations used by the code.
-/

set_option maxRecDepth 4096

deriving instance DecidableEq for Except

namespace AuthService

/-! ## Association-list model of `std::collections::HashMap` -/

/-- `HashMap::get`: look up the value stored under key `k`. -/
def mapLookup {α β : Type} [DecidableEq α] (k : α) : List (α × β) → Option β
  | [] => none
  | (k', v) :: rest => if k' = k then some v else mapLookup k rest

/-- `HashMap::insert`: store `v` under `k`, replacing any previous value. -/
def mapInsert {α β : Type} [DecidableEq α] (k : α) (v : β) :
    List (α × β) → List (α × β)
  | [] => [(k, v)]
  | (k', v') :: rest =>
    if k' = k then (k, v) :: rest else (k', v') :: mapInsert k v rest

/-- `HashMap::remove`: delete the entry stored under `k`, if any. -/
def mapRemove {α β : Type} [DecidableEq α] (k : α) :
    List (α × β) → List (α × β)
  | [] => []
  | (k', v') :: rest =>
    if k' = k then mapRemove k rest else (k', v') :: mapRemove k rest

/-- `HashSet::insert` on a list-modelled set of strings. -/
def setInsert (t : String) (s : List String) : List String :=
  if t ∈ s then s else t :: s

/-! ## Domain error enums (`src/domain/data_stores.rs`, `src/domain/error.rs`) -/

/-- `UserStoreError` from `src/domain/data_stores.rs`.  The Rust
`UnexpectedError` variant carries an `eyre::Report` used only for operator
diagnostics; `PartialEq` on the Rust type ignores it, so it is dropped here. -/
inductive UserStoreError : Type
  | userAlreadyExists
  | userNotFound
  | invalidCredentials
  | unexpectedError
deriving DecidableEq, Repr

/-- `BannedTokenStoreError` from `src/domain/data_stores.rs`. -/
inductive BannedTokenStoreError : Type
  | unexpectedError
deriving DecidableEq, Repr

/-- `TwoFACodeStoreError` from `src/domain/data_stores.rs`. -/
inductive TwoFACodeStoreError : Type
  | loginAttemptIdNotFound
  | unexpectedError
deriving DecidableEq, Repr

/-- `AuthAPIError` from `src/domain/error.rs` (report payload dropped as
above). -/
inductive AuthAPIError : Type
  | userAlreadyExists
  | invalidCredentials
  | incorrectCredentials
  | missingToken
  | invalidToken
  | unexpectedError
deriving DecidableEq, Repr

/-! ## Domain value types (`src/domain/user.rs`) -/

/-- `Email(String)` from `src/domain/user.rs`. -/
structure Email : Type where
  value : String
deriving DecidableEq, Repr

/-- `Email::parse`: accepts a non-empty string containing `'@'`, from
`src/domain/user.rs`; on failure the source returns
`AuthAPIError::InvalidCredentials`. -/
def Email.parse (email : String) : Except AuthAPIError Email :=
  if email ≠ "" ∧ '@' ∈ email.data then .ok ⟨email⟩
  else .error .invalidCredentials

/-- `Password(Secret<String>)` from `src/domain/user.rs`; the `Secret`
wrapper only controls debug printing, so the payload string is the state. -/
structure Password : Type where
  value : String
deriving DecidableEq, Repr

/-- `validate_password` from `src/domain/user.rs`: at least 8 bytes. -/
def validate_password (s : String) : Bool :=
  8 ≤ s.length

/-- `Password::parse` from `src/domain/user.rs`. -/
def Password.parse (s : String) : Except String Password :=
  if validate_password s then .ok ⟨s⟩
  else .error "Failed to parse string to a Password type"

/-- `User` from `src/domain/user.rs`: the record persisted by the stores.
Note the `password` field holds the (wrapped) raw password, not a hash. -/
structure User : Type where
  email : Email
  password : Password
  requires_2fa : Bool
deriving DecidableEq, Repr

/-! ## `HashmapUserStore` (`src/services/data_stores/hashmap_user_store.rs`) -/

/-- `HashmapUserStore { users: HashMap<Email, User> }`. -/
structure HashmapUserStore : Type where
  users : List (Email × User)
deriving DecidableEq, Repr

/-- `HashmapUserStore::add_user`: `UserAlreadyExists` if the email is
already a key, otherwise insert keyed by the user's email. -/
def HashmapUserStore.add_user (s : HashmapUserStore) (user : User) :
    HashmapUserStore × Except UserStoreError Unit :=
  if (mapLookup user.email s.users).isSome then
    (s, .error .userAlreadyExists)
  else
    (⟨mapInsert user.email user s.users⟩, .ok ())

/-- `HashmapUserStore::get_user`. -/
def HashmapUserStore.get_user (s : HashmapUserStore) (email : Email) :
    Except UserStoreError User :=
  match mapLookup email s.users with
  | some u => .ok u
  | none => .error .userNotFound

/-- `HashmapUserStore::validate_user`: compares the stored raw password for
equality with the candidate. -/
def HashmapUserStore.validate_user (s : HashmapUserStore) (email : Email)
    (password : Password) : Except UserStoreError Unit :=
  match mapLookup email s.users with
  | some user =>
    if user.password = password then .ok () else .error .invalidCredentials
  | none => .error .userNotFound

/-! ## Password hashing helpers
(`src/services/data_stores/postgres_user_store.rs`)

The Argon2 library itself is external; the raw Argon2id hash computation and
verification primitives are passed in as the parameters `argon2Hash` and
`argon2Verify`, and `PasswordHash::new` (parsing a stored PHC-format hash
string) as `parseHash`. -/

/-- `compute_password_hash` from
`src/services/data_stores/postgres_user_store.rs`: generates a salt, runs
Argon2id — and then discards the computed hash, returning
`Err(eyre!("oh no!"))` unconditionally: the line `Ok(password_hash)` is
commented out in the source. -/
def compute_password_hash (argon2Hash : String → String → String)
    (salt password : String) : Except String String :=
  let _password_hash := argon2Hash password salt
  .error "oh no!"

/-- `verify_password_hash` from
`src/services/data_stores/postgres_user_store.rs`: parse the stored hash
(failure is its own error, distinct from a mismatch), then verify the
candidate against it. -/
def verify_password_hash (parseHash : String → Option String)
    (argon2Verify : String → String → Bool)
    (expected_password_hash password_candidate : String) :
    Except String Unit :=
  match parseHash expected_password_hash with
  | none => .error "failed to parse password hash"
  | some h =>
    if argon2Verify password_candidate h then .ok ()
    else .error "failed to verify password hash"

/-! ## `PostgresUserStore` (`src/services/data_stores/postgres_user_store.rs`)

The `users` table is modelled as a list of rows; the SQL `INSERT` with the
primary-key constraint on `email` fails (surfaced as `UnexpectedError`) when
a row with the same email exists. -/

/-- One row of the `users` table (`struct Users` in the source). -/
structure UsersRow : Type where
  email : String
  password_hash : String
  requires_2fa : Bool
deriving DecidableEq, Repr

/-- `PostgresUserStore::add_user`: hash the password via
`compute_password_hash` (any failure becomes `UnexpectedError`), then
`INSERT` the row. -/
def PostgresUserStore.add_user (argon2Hash : String → String → String)
    (salt : String) (db : List UsersRow) (user : User) :
    List UsersRow × Except UserStoreError Unit :=
  match compute_password_hash argon2Hash salt user.password.value with
  | .error _ => (db, .error .unexpectedError)
  | .ok password_hash =>
    if db.any (fun r => r.email = user.email.value) then
      (db, .error .unexpectedError)
    else
      (db ++ [⟨user.email.value, password_hash, user.requires_2fa⟩], .ok ())

/-- `PostgresUserStore::validate_user`: fetch the row (`RowNotFound` ⇒
`UserNotFound`), then any `verify_password_hash` failure becomes
`InvalidCredentials`. -/
def PostgresUserStore.validate_user (parseHash : String → Option String)
    (argon2Verify : String → String → Bool) (db : List UsersRow)
    (email : Email) (password : Password) : Except UserStoreError Unit :=
  match db.find? (fun r => r.email = email.value) with
  | none => .error .userNotFound
  | some row =>
    match verify_password_hash parseHash argon2Verify row.password_hash
        password.value with
    | .error _ => .error .invalidCredentials
    | .ok _ => .ok ()

/-! ## Two-factor value types (`src/domain/data_stores.rs`) -/

/-- `LoginAttemptId(Secret<String>)` from `src/domain/data_stores.rs`. -/
structure LoginAttemptId : Type where
  value : String
deriving DecidableEq, Repr

/-- `LoginAttemptId::parse` from `src/domain/data_stores.rs`: run
`uuid::Uuid::parse_str` and store the canonical `to_string` form.  The UUID
library is external; `uuidParse` models `parse_str` composed with
`to_string` (returning `none` on a parse failure). -/
def LoginAttemptId.parse (uuidParse : String → Option String) (id : String) :
    Except String LoginAttemptId :=
  match uuidParse id with
  | none => .error "Invalid login attempt id"
  | some canonical => .ok ⟨canonical⟩

/-- `TwoFACode(Secret<String>)` from `src/domain/data_stores.rs`. -/
structure TwoFACode : Type where
  value : String
deriving DecidableEq, Repr

/-- Strip the optional leading `'+'` accepted by Rust's `u32::from_str`. -/
def stripPlus : List Char → List Char
  | '+' :: rest => rest
  | cs => cs

/-- Numeric value of a list of ASCII digits. -/
def digitsVal (ds : List Char) : Nat :=
  ds.foldl (fun acc c => 10 * acc + (c.toNat - '0'.toNat)) 0

/-- Model of Rust's `str::parse::<u32>`: an optional leading `'+'`, then a
non-empty run of ASCII digits whose value fits in 32 bits; anything else
(empty string, other characters, overflow) is a parse error. -/
def rustParseU32 (s : String) : Option Nat :=
  let ds := stripPlus s.data
  if ds.isEmpty then none
  else if ds.all Char.isDigit then
    let v := digitsVal ds
    if v < 2 ^ 32 then some v else none
  else none

/-- `TwoFACode::parse` from `src/domain/data_stores.rs`: parse the string as
a `u32` and require the value to lie in `100_000..=999_999`; on success the
original string (not a canonical form) is stored. -/
def TwoFACode.parse (code : String) : Except String TwoFACode :=
  match rustParseU32 code with
  | none => .error "invalid digit found in string"
  | some v =>
    if 100000 ≤ v ∧ v ≤ 999999 then .ok ⟨code⟩
    else .error "Invalid email code"

/-- The spec's wording for the code format invariant (§4.4): a string of
exactly 6 ASCII digits.  Kept separate from `TwoFACode.parse`, which is
translated from the source, so the two can be compared. -/
def spec_sixAsciiDigits (s : String) : Bool :=
  s.length = 6 && s.data.all Char.isDigit

/-! ## `HashmapTwoFACodeStore`
(`src/services/data_stores/hashmap_two_fa_code_store.rs`) -/

/-- `HashmapTwoFACodeStore { codes: HashMap<Email, (LoginAttemptId, TwoFACode)> }`. -/
structure HashmapTwoFACodeStore : Type where
  codes : List (Email × (LoginAttemptId × TwoFACode))
deriving DecidableEq, Repr

/-- `HashmapTwoFACodeStore::add_code`: unconditional `HashMap::insert`
(overwrites any pending entry for the email) and `Ok(())`. -/
def HashmapTwoFACodeStore.add_code (s : HashmapTwoFACodeStore) (email : Email)
    (login_attempt_id : LoginAttemptId) (code : TwoFACode) :
    HashmapTwoFACodeStore × Except TwoFACodeStoreError Unit :=
  (⟨mapInsert email (login_attempt_id, code) s.codes⟩, .ok ())

/-- `HashmapTwoFACodeStore::remove_code`: `HashMap::remove` and `Ok(())`. -/
def HashmapTwoFACodeStore.remove_code (s : HashmapTwoFACodeStore)
    (email : Email) : HashmapTwoFACodeStore × Except TwoFACodeStoreError Unit :=
  (⟨mapRemove email s.codes⟩, .ok ())

/-- `HashmapTwoFACodeStore::get_code`: clone the stored pair or fail with
`LoginAttemptIdNotFound`. -/
def HashmapTwoFACodeStore.get_code (s : HashmapTwoFACodeStore)
    (email : Email) : Except TwoFACodeStoreError (LoginAttemptId × TwoFACode) :=
  match mapLookup email s.codes with
  | some pair => .ok pair
  | none => .error .loginAttemptIdNotFound

/-! ## `HashsetBannedTokenStore`
(`src/services/data_stores/hashset_banned_token_store.rs`) -/

/-- `HashsetBannedTokenStore { tokens: HashSet<String> }`. -/
structure HashsetBannedTokenStore : Type where
  tokens : List String
deriving DecidableEq, Repr

/-- `HashsetBannedTokenStore::add_token`: insert the token string and return
`Ok(())` — there is no failure path. -/
def HashsetBannedTokenStore.add_token (s : HashsetBannedTokenStore)
    (token : String) : HashsetBannedTokenStore × Except BannedTokenStoreError Unit :=
  (⟨setInsert token s.tokens⟩, .ok ())

/-- `HashsetBannedTokenStore::contains_token`: membership test, `Ok(bool)`. -/
def HashsetBannedTokenStore.contains_token (s : HashsetBannedTokenStore)
    (token : String) : Except BannedTokenStoreError Bool :=
  .ok (decide (token ∈ s.tokens))

/-- The operations the `BannedTokenStore` trait
(`src/domain/data_stores.rs`) offers on the store — its complete interface:
storing a token and a membership query. -/
inductive BannedOp : Type
  | addToken (t : String)
  | containsToken (t : String)
deriving DecidableEq, Repr

/-- Effect of one trait operation on the `HashsetBannedTokenStore` state
(`contains_token` takes `&self` and cannot modify it). -/
def bannedStep (s : HashsetBannedTokenStore) (op : BannedOp) :
    HashsetBannedTokenStore :=
  match op with
  | .addToken t => (s.add_token t).1
  | .containsToken _ => s

/-- Run a sequence of banned-token-store operations. -/
def bannedRun (s : HashsetBannedTokenStore) (ops : List BannedOp) :
    HashsetBannedTokenStore :=
  ops.foldl bannedStep s

/-! ## Token validation (`src/utils/auth.rs`) -/

/-- JWT `Claims { sub, exp }` from `src/utils/auth.rs`. -/
structure Claims : Type where
  sub : String
  exp : Nat
deriving DecidableEq, Repr

/-- `TOKEN_TTL_SECONDS` from `src/utils/auth.rs`. -/
def TOKEN_TTL_SECONDS : Nat := 600

/-- The three failure sources of `validate_token` (the source returns
distinct `eyre` reports: "token is banned", a store error, and "failed to
decode token"). -/
inductive TokenError : Type
  | banned
  | storeError
  | decodeFailed
deriving DecidableEq, Repr

/-- `validate_token` from `src/utils/auth.rs`: first query the banned token
store — `Ok(true)` short-circuits to the "token is banned" error and a store
error propagates — and only otherwise run the JWT `decode` (an external
library call, passed in as `decode`; it performs the signature and expiry
checks). -/
def validate_token (contains_token : String → Except BannedTokenStoreError Bool)
    (decode : String → Except String Claims) (token : String) :
    Except TokenError Claims :=
  match contains_token token with
  | .ok true => .error .banned
  | .ok false =>
    match decode token with
    | .ok claims => .ok claims
    | .error _ => .error .decodeFailed
  | .error _ => .error .storeError

/-! ## Logout route (`src/routes/logout.rs`) -/

/-- Outcome of the `logout` handler; `panicked` marks the `unwrap()` on the
`add_token` result firing. -/
inductive LogoutResult : Type
  | ok
  | missingToken
  | invalidToken
  | panicked
deriving DecidableEq, Repr

/-- `logout` from `src/routes/logout.rs`: `MissingToken` without the JWT
cookie; `InvalidToken` when `validate_token` fails; otherwise
`add_token(token).unwrap()` (modelled as `panicked` on an `Err`) and 200. -/
def logout (decode : String → Except String Claims)
    (banned : HashsetBannedTokenStore) (cookie : Option String) :
    HashsetBannedTokenStore × LogoutResult :=
  match cookie with
  | none => (banned, .missingToken)
  | some token =>
    match validate_token banned.contains_token decode token with
    | .error _ => (banned, .invalidToken)
    | .ok _ =>
      match banned.add_token token with
      | (banned', .ok _) => (banned', .ok)
      | (banned', .error _) => (banned', .panicked)

/-! ## Login route (`src/routes/login.rs`)

The handler is written against the store traits; the user-store operations,
the 2FA code store (threaded as a state `σ`), the email client and the
cookie generation are passed in as parameters.  `fresh_id`/`fresh_code`
stand for the `LoginAttemptId::default()` / `TwoFACode::default()` random
values drawn inside `handle_2fa`. -/

/-- `LoginRequest` from `src/routes/login.rs`. -/
structure LoginRequest : Type where
  email : String
  password : String
deriving DecidableEq, Repr

/-- `LoginResponse` from `src/routes/login.rs` (`TwoFactorAuthResponse`
inlined as its two fields). -/
inductive LoginResponse : Type
  | regularAuth
  | twoFactorAuth (message : String) (login_attempt_id : String)
deriving DecidableEq, Repr

/-- Successful result of the `login` handler: HTTP status, body, and the
auth cookie added to the jar (if any). -/
structure LoginOk : Type where
  status : Nat
  response : LoginResponse
  auth_cookie : Option String
deriving DecidableEq, Repr

/-- `handle_no_2fa` from `src/routes/login.rs`: generate the auth cookie
(failure ⇒ `UnexpectedError`), add it to the jar, 200 with `RegularAuth`. -/
def handle_no_2fa (generate_auth_cookie : Email → Option String)
    (email : Email) : Except AuthAPIError LoginOk :=
  match generate_auth_cookie email with
  | none => .error .unexpectedError
  | some cookie => .ok ⟨200, .regularAuth, some cookie⟩

/-- `handle_2fa` from `src/routes/login.rs`: store the fresh
(id, code) pair (failure ⇒ `UnexpectedError`), send the code by email
(failure ⇒ `UnexpectedError`), then 206 with the attempt id in the body (the
jar receives only the hard-coded `login_attempt_id` cookie, no auth
cookie). -/
def handle_2fa {σ : Type}
    (add_code : σ → Email → LoginAttemptId → TwoFACode →
      σ × Except TwoFACodeStoreError Unit)
    (send_email : Email → String → String → Except Unit Unit)
    (fresh_id : LoginAttemptId) (fresh_code : TwoFACode)
    (codeStore : σ) (email : Email) : σ × Except AuthAPIError LoginOk :=
  match add_code codeStore email fresh_id fresh_code with
  | (codeStore', .error _) => (codeStore', .error .unexpectedError)
  | (codeStore', .ok _) =>
    match send_email email "Subject: 2FA code" fresh_code.value with
    | .error _ => (codeStore', .error .unexpectedError)
    | .ok _ =>
      (codeStore',
        .ok ⟨206, .twoFactorAuth "2FA required" fresh_id.value, none⟩)

/-- `login` from `src/routes/login.rs`: parse the email and the password
(malformed ⇒ `InvalidCredentials`); call the user store's `validate_user`
and return `IncorrectCredentials` on *any* error (`is_err()` — the
not-found, wrong-password and I/O cases alike); same for `get_user`; then
branch on the user's `requires_2fa` flag. -/
def login {σ : Type}
    (validate_user : Email → Password → Except UserStoreError Unit)
    (get_user : Email → Except UserStoreError User)
    (add_code : σ → Email → LoginAttemptId → TwoFACode →
      σ × Except TwoFACodeStoreError Unit)
    (send_email : Email → String → String → Except Unit Unit)
    (generate_auth_cookie : Email → Option String)
    (fresh_id : LoginAttemptId) (fresh_code : TwoFACode)
    (codeStore : σ) (request : LoginRequest) :
    σ × Except AuthAPIError LoginOk :=
  match Email.parse request.email with
  | .error _ => (codeStore, .error .invalidCredentials)
  | .ok email =>
  match Password.parse request.password with
  | .error _ => (codeStore, .error .invalidCredentials)
  | .ok password =>
  match validate_user email password with
  | .error _ => (codeStore, .error .incorrectCredentials)
  | .ok _ =>
  match get_user email with
  | .error _ => (codeStore, .error .incorrectCredentials)
  | .ok user =>
    if user.requires_2fa then
      handle_2fa add_code send_email fresh_id fresh_code codeStore user.email
    else
      (codeStore, handle_no_2fa generate_auth_cookie user.email)

/-! ## Second-factor submission route -/

/-- `Verify2FARequest` (the shape of the route's JSON body). -/
structure Verify2FARequest : Type where
  email : String
  login_attempt_id : String
  two_fa_code : String
deriving DecidableEq, Repr

/-- Modelled from the spec: the second-factor submission operation
(`verify_2fa`).  The route file `src/routes/verify_2fa.rs` is entirely
commented out in the source, so the handler is modelled from §4.5 step 6 of
the spec (which the commented-out code matches): parse/validate identity,
attempt identifier and code formats (malformed ⇒ `InvalidCredentials`);
fetch the stored pair via `get` (absent ⇒ `IncorrectCredentials`); if the
submitted pair does not exactly match both identifier and code ⇒
`IncorrectCredentials`; on exact match, issue a session token, remove the
entry (single-use) and return 200.  The 2FA store is the repository's
`HashmapTwoFACodeStore`; token issuance is the `generate_auth_cookie`
parameter. -/
def verify_2fa (uuidParse : String → Option String)
    (generate_auth_cookie : Email → Option String)
    (store : HashmapTwoFACodeStore) (request : Verify2FARequest) :
    HashmapTwoFACodeStore × Except AuthAPIError (Nat × String) :=
  match Email.parse request.email with
  | .error _ => (store, .error .invalidCredentials)
  | .ok email =>
  match LoginAttemptId.parse uuidParse request.login_attempt_id with
  | .error _ => (store, .error .invalidCredentials)
  | .ok login_attempt_id =>
  match TwoFACode.parse request.two_fa_code with
  | .error _ => (store, .error .invalidCredentials)
  | .ok two_fa_code =>
  match store.get_code email with
  | .error _ => (store, .error .incorrectCredentials)
  | .ok code_tuple =>
    if (login_attempt_id, two_fa_code) ≠ code_tuple then
      (store, .error .incorrectCredentials)
    else
      match generate_auth_cookie email with
      | none => (store, .error .unexpectedError)
      | some cookie =>
        match store.remove_code email with
        | (store', .error _) => (store', .error .unexpectedError)
        | (store', .ok _) => (store', .ok (200, cookie))

/-! ## Helper lemmas on the map/set models -/

lemma mapLookup_insert_self {α β : Type} [DecidableEq α] (k : α) (v : β)
    (m : List (α × β)) : mapLookup k (mapInsert k v m) = some v := by
  induction m with
  | nil => simp [mapInsert, mapLookup]
  | cons p rest ih =>
    obtain ⟨k', v'⟩ := p
    by_cases h : k' = k
    · simp [mapInsert, mapLookup, h]
    · simp [mapInsert, mapLookup, h, ih]

lemma mapLookup_insert_ne {α β : Type} [DecidableEq α] (k k' : α) (v : β)
    (m : List (α × β)) (hne : k' ≠ k) :
    mapLookup k (mapInsert k' v m) = mapLookup k m := by
  induction m with
  | nil => simp [mapInsert, mapLookup, hne]
  | cons p rest ih =>
    obtain ⟨k'', v''⟩ := p
    by_cases h : k'' = k'
    · subst h; simp [mapInsert, mapLookup, hne]
    · simp [mapInsert, mapLookup, h, ih]

lemma mapLookup_remove_self {α β : Type} [DecidableEq α] (k : α)
    (m : List (α × β)) : mapLookup k (mapRemove k m) = none := by
  induction m with
  | nil => simp [mapRemove, mapLookup]
  | cons p rest ih =>
    obtain ⟨k', v'⟩ := p
    by_cases h : k' = k
    · simp [mapRemove, mapLookup, h, ih]
    · simp [mapRemove, mapLookup, h, ih]

lemma mapLookup_remove_ne {α β : Type} [DecidableEq α] (k k' : α)
    (m : List (α × β)) (hne : k' ≠ k) :
    mapLookup k (mapRemove k' m) = mapLookup k m := by
  induction m with
  | nil => simp [mapRemove, mapLookup]
  | cons p rest ih =>
    obtain ⟨k'', v''⟩ := p
    by_cases h : k'' = k'
    · subst h; simp [mapRemove, mapLookup, hne, ih]
    · simp [mapRemove, mapLookup, h, ih]

/-- Tokens present in the banned-token store survive any sequence of store
operations: neither of the two trait operations ever removes an entry. -/
lemma bannedRun_preserves_mem (s : HashsetBannedTokenStore)
    (ops : List BannedOp) (t : String) (h : t ∈ s.tokens) :
    t ∈ (bannedRun s ops).tokens := by
  induction ops generalizing s with
  | nil => exact h
  | cons op rest ih =>
    apply ih
    cases op with
    | addToken u =>
      simp only [bannedStep, HashsetBannedTokenStore.add_token, setInsert]
      split
      · exact h
      · exact List.mem_cons_of_mem _ h
    | containsToken u => exact h

/-- The `login` handler turns every `validate_user` failure — whatever the
underlying `UserStoreError` — into `IncorrectCredentials`. -/
lemma login_of_validate_error {σ : Type}
    (validate_user : Email → Password → Except UserStoreError Unit)
    (get_user : Email → Except UserStoreError User)
    (add_code : σ → Email → LoginAttemptId → TwoFACode →
      σ × Except TwoFACodeStoreError Unit)
    (send_email : Email → String → String → Except Unit Unit)
    (generate_auth_cookie : Email → Option String)
    (fresh_id : LoginAttemptId) (fresh_code : TwoFACode) (codeStore : σ)
    (request : LoginRequest) (email : Email) (password : Password)
    (e : UserStoreError)
    (hemail : Email.parse request.email = .ok email)
    (hpassword : Password.parse request.password = .ok password)
    (hvalidate : validate_user email password = .error e) :
    login validate_user get_user add_code send_email generate_auth_cookie
      fresh_id fresh_code codeStore request
      = (codeStore, .error .incorrectCredentials) := by
  simp [login, hemail, hpassword, hvalidate]

/-! ## Verified claims -/

/-- C1: the password-hashing round-trip fails at its first step.  For the
valid password "password123" (it passes `Password.parse`),
`compute_password_hash` does not succeed for any choice of the Argon2
primitive or salt: it unconditionally returns the error "oh no!" (the
source's `Ok(password_hash)` line is commented out), so no hash is ever
produced for `verify_password_hash` to verify. -/
theorem compute_password_hash_always_fails :
    Password.parse "password123" = .ok ⟨"password123"⟩ ∧
    ∀ (argon2Hash : String → String → String) (salt : String),
      compute_password_hash argon2Hash salt "password123" = .error "oh no!" :=
  ⟨by decide, fun _ _ => rfl⟩

/-- C2: the credential store's hashing `add` path never persists.  For
every database state and every account, `PostgresUserStore.add_user`
returns `UnexpectedError` and leaves the table unchanged, because
`compute_password_hash` always fails; the record (hashed or otherwise) is
never written. -/
theorem postgres_add_user_never_persists :
    ∀ (argon2Hash : String → String → String) (salt : String)
      (db : List UsersRow) (user : User),
      PostgresUserStore.add_user argon2Hash salt db user
        = (db, .error .unexpectedError) :=
  fun _ _ _ _ => rfl

/-- C3 counterexample: a login whose `validate_user` fails with the I/O
error `UnexpectedError` receives `IncorrectCredentials` — not
`UnexpectedError` — so the store I/O failure is not kept distinct from the
credential-rejection outcome. -/
theorem login_io_error_counterexample :
    login (fun _ _ => .error .unexpectedError) (fun _ => .error .userNotFound)
      (fun s _ _ _ => (s, .ok ())) (fun _ _ _ => .ok ())
      (fun _ => some "cookie") ⟨"id0"⟩ ⟨"123456"⟩ ()
      ⟨"a@x.com", "password123"⟩ = ((), .error .incorrectCredentials) ∧
    AuthAPIError.incorrectCredentials ≠ AuthAPIError.unexpectedError := by
  exact ⟨by decide, by decide⟩

/-- C3 (amended): for every well-formed login request, *every* failure of
the credential store's `validate_user` — `UserNotFound`,
`InvalidCredentials` and the I/O `UnexpectedError` alike — produces the
single outward outcome `IncorrectCredentials`; the login route does not
propagate `UnexpectedError` from `validate_user`. -/
theorem login_maps_any_validate_error_to_incorrect_credentials :
    ∀ {σ : Type}
      (validate_user : Email → Password → Except UserStoreError Unit)
      (get_user : Email → Except UserStoreError User)
      (add_code : σ → Email → LoginAttemptId → TwoFACode →
        σ × Except TwoFACodeStoreError Unit)
      (send_email : Email → String → String → Except Unit Unit)
      (generate_auth_cookie : Email → Option String)
      (fresh_id : LoginAttemptId) (fresh_code : TwoFACode) (codeStore : σ)
      (request : LoginRequest) (email : Email) (password : Password)
      (e : UserStoreError),
      Email.parse request.email = .ok email →
      Password.parse request.password = .ok password →
      validate_user email password = .error e →
      login validate_user get_user add_code send_email generate_auth_cookie
        fresh_id fresh_code codeStore request
        = (codeStore, .error .incorrectCredentials) :=
  fun vu gu ac se gac fi fc cs req email password e he hp hv =>
    login_of_validate_error vu gu ac se gac fi fc cs req email password e
      he hp hv

/-- C3 witness: the amended statement at a concrete request whose
`validate_user` fails with `UnexpectedError`. -/
theorem login_maps_any_validate_error_witness :
    login (fun _ _ => .error .unexpectedError) (fun _ => .error .userNotFound)
      (fun s _ _ _ => (s, .ok ())) (fun _ _ _ => .ok ())
      (fun _ => some "cookie") ⟨"id0"⟩ ⟨"123456"⟩ ()
      ⟨"a@x.com", "password123"⟩ = ((), .error .incorrectCredentials) :=
  login_maps_any_validate_error_to_incorrect_credentials
    (fun _ _ => .error .unexpectedError) (fun _ => .error .userNotFound)
    (fun s _ _ _ => (s, .ok ())) (fun _ _ _ => .ok ())
    (fun _ => some "cookie") ⟨"id0"⟩ ⟨"123456"⟩ ()
    ⟨"a@x.com", "password123"⟩ ⟨"a@x.com"⟩ ⟨"password123"⟩
    .unexpectedError (by decide) (by decide) rfl

/-- C4: exactly-once consumption of a second-factor code.  For every
pending challenge (a stored (attempt id, code) pair for the identity),
submitting the correct pair succeeds with 200 and the session cookie and
removes the stored entry, and the identical second submission fails with
`IncorrectCredentials`. -/
theorem verify_2fa_exactly_once :
    ∀ (uuidParse : String → Option String)
      (generate_auth_cookie : Email → Option String)
      (store : HashmapTwoFACodeStore) (request : Verify2FARequest)
      (email : Email) (id : LoginAttemptId) (code : TwoFACode)
      (cookie : String),
      Email.parse request.email = .ok email →
      LoginAttemptId.parse uuidParse request.login_attempt_id = .ok id →
      TwoFACode.parse request.two_fa_code = .ok code →
      store.get_code email = .ok (id, code) →
      generate_auth_cookie email = some cookie →
      verify_2fa uuidParse generate_auth_cookie store request
        = ((store.remove_code email).1, .ok (200, cookie)) ∧
      (store.remove_code email).1.get_code email
        = .error .loginAttemptIdNotFound ∧
      verify_2fa uuidParse generate_auth_cookie (store.remove_code email).1
        request
        = ((store.remove_code email).1, .error .incorrectCredentials) := by
  intro up gac store req email id code cookie hemail hid hcode hget hgen
  have hremoved : (store.remove_code email).1.get_code email
      = .error .loginAttemptIdNotFound := by
    simp [HashmapTwoFACodeStore.remove_code, HashmapTwoFACodeStore.get_code,
      mapLookup_remove_self]
  refine ⟨?_, hremoved, ?_⟩
  · simp [verify_2fa, hemail, hid, hcode, hget, hgen,
      HashmapTwoFACodeStore.remove_code]
  · simp [verify_2fa, hemail, hid, hcode, hremoved]

/-- C4 witness: the exactly-once property at a concrete pending challenge:
the first submission returns 200 and empties the store, the second one
fails with `IncorrectCredentials`. -/
theorem verify_2fa_exactly_once_witness :
    verify_2fa (fun s => some s) (fun _ => some "jwt")
      ⟨[(⟨"a@x.com"⟩, ⟨"11111111-1111-1111-1111-111111111111"⟩, ⟨"123456"⟩)]⟩
      ⟨"a@x.com", "11111111-1111-1111-1111-111111111111", "123456"⟩
      = (⟨[]⟩, .ok (200, "jwt")) ∧
    verify_2fa (fun s => some s) (fun _ => some "jwt") ⟨[]⟩
      ⟨"a@x.com", "11111111-1111-1111-1111-111111111111", "123456"⟩
      = (⟨[]⟩, .error .incorrectCredentials) := by
  have h := verify_2fa_exactly_once (fun s => some s) (fun _ => some "jwt")
    ⟨[(⟨"a@x.com"⟩, ⟨"11111111-1111-1111-1111-111111111111"⟩, ⟨"123456"⟩)]⟩
    ⟨"a@x.com", "11111111-1111-1111-1111-111111111111", "123456"⟩
    ⟨"a@x.com"⟩ ⟨"11111111-1111-1111-1111-111111111111"⟩ ⟨"123456"⟩ "jwt"
    (by decide) (by decide) (by decide) (by decide) (by decide)
  exact ⟨h.1, h.2.2⟩

/-- C5 counterexample: a reachable state of the in-memory revocation store
holds an entry that no sequence of store operations ever removes: the
`BannedTokenStore` interface has no removal or TTL purge, contradicting the
claim that each entry is removed once the 600-second token TTL has
elapsed. -/
theorem banned_store_no_ttl_purge :
    ∃ (t : String) (s : HashsetBannedTokenStore),
      s = bannedRun ⟨[]⟩ [.addToken t] ∧ t ∈ s.tokens ∧
      ∀ ops : List BannedOp, t ∈ (bannedRun s ops).tokens := by
  refine ⟨"tok", bannedRun ⟨[]⟩ [.addToken "tok"], rfl, by decide, ?_⟩
  intro ops
  exact bannedRun_preserves_mem _ ops _ (by decide)

/-- C5 (amended): entries of the in-memory revocation store are never
removed at all — both trait operations preserve every stored token, so the
store grows monotonically and nothing bounds an entry's lifetime by the
token TTL (only the out-of-scope Redis-backed store has a TTL
mechanism). -/
theorem banned_store_entries_never_removed :
    ∀ (s : HashsetBannedTokenStore) (ops : List BannedOp) (t : String),
      t ∈ s.tokens → t ∈ (bannedRun s ops).tokens :=
  fun s ops t h => bannedRun_preserves_mem s ops t h

/-- C5 witness: a concrete banned token survives a concrete operation
sequence. -/
theorem banned_store_entries_never_removed_witness :
    "tok" ∈ (HashsetBannedTokenStore.mk ["tok"]).tokens ∧
    "tok" ∈ (bannedRun ⟨["tok"]⟩
      [.containsToken "tok", .addToken "other"]).tokens :=
  ⟨by decide,
    banned_store_entries_never_removed ⟨["tok"]⟩
      [.containsToken "tok", .addToken "other"] "tok" (by decide)⟩

/-- C6: revocation short-circuit.  Whenever the banned-token store reports
the token as present, `validate_token` fails with the revocation error for
*every* JWT decode function — the signature/expiry check (`decode`) is
never consulted, so a revoked-but-unexpired token can never reach a
successful signature/expiry check. -/
theorem validate_token_revoked_short_circuits :
    ∀ (contains_token : String → Except BannedTokenStoreError Bool)
      (token : String),
      contains_token token = .ok true →
      ∀ decode : String → Except String Claims,
        validate_token contains_token decode token = .error .banned := by
  intro ct token h decode
  simp [validate_token, h]

/-- C6 witness: a token banned in a concrete `HashsetBannedTokenStore` is
rejected as revoked even though the supplied decoder would accept it. -/
theorem validate_token_revoked_short_circuits_witness :
    (HashsetBannedTokenStore.mk ["tok"]).contains_token "tok" = .ok true ∧
    validate_token (HashsetBannedTokenStore.mk ["tok"]).contains_token
      (fun _ => .ok ⟨"a@x.com", 0⟩) "tok" = .error .banned :=
  ⟨by decide,
    validate_token_revoked_short_circuits _ "tok" (by decide) _⟩

/-- C7: second-factor code store round-trip.  After
`add_code email id code`: `get_code email` returns exactly `(id, code)`;
after a `remove_code email` it returns `LoginAttemptIdNotFound`; a later
`add_code` for the same email supersedes the pair; and operations on a
different email leave the entry intact. -/
theorem twofa_store_roundtrip :
    ∀ (s : HashmapTwoFACodeStore) (email e2 : Email)
      (id id2 : LoginAttemptId) (code code2 : TwoFACode),
      e2 ≠ email →
      ((s.add_code email id code).1.get_code email = .ok (id, code)) ∧
      ((((s.add_code email id code).1.remove_code email).1).get_code email
        = .error .loginAttemptIdNotFound) ∧
      ((((s.add_code email id code).1.add_code email id2 code2).1).get_code
        email = .ok (id2, code2)) ∧
      ((((s.add_code email id code).1.add_code e2 id2 code2).1).get_code
        email = .ok (id, code)) ∧
      ((((s.add_code email id code).1.remove_code e2).1).get_code email
        = .ok (id, code)) := by
  intro s email e2 id id2 code code2 hne
  refine ⟨?_, ?_, ?_, ?_, ?_⟩
  · simp [HashmapTwoFACodeStore.add_code, HashmapTwoFACodeStore.get_code,
      mapLookup_insert_self]
  · simp [HashmapTwoFACodeStore.add_code, HashmapTwoFACodeStore.remove_code,
      HashmapTwoFACodeStore.get_code, mapLookup_remove_self]
  · simp [HashmapTwoFACodeStore.add_code, HashmapTwoFACodeStore.get_code,
      mapLookup_insert_self]
  · simp [HashmapTwoFACodeStore.add_code, HashmapTwoFACodeStore.get_code,
      mapLookup_insert_ne _ _ _ _ hne, mapLookup_insert_self]
  · simp [HashmapTwoFACodeStore.add_code, HashmapTwoFACodeStore.remove_code,
      HashmapTwoFACodeStore.get_code, mapLookup_remove_ne _ _ _ hne,
      mapLookup_insert_self]

/-- C7 witness: the round-trip at a concrete store and identity. -/
theorem twofa_store_roundtrip_witness :
    ((HashmapTwoFACodeStore.mk []).add_code ⟨"a@x.com"⟩ ⟨"id1"⟩
      ⟨"123456"⟩).1.get_code ⟨"a@x.com"⟩ = .ok (⟨"id1"⟩, ⟨"123456"⟩) :=
  (twofa_store_roundtrip ⟨[]⟩ ⟨"a@x.com"⟩ ⟨"b@x.com"⟩ ⟨"id1"⟩ ⟨"id2"⟩
    ⟨"123456"⟩ ⟨"654321"⟩ (by decide)).1

/-- C8 counterexample: `TwoFACode.parse` does not accept exactly the
strings of 6 ASCII digits: "099999" is 6 ASCII digits yet is rejected (its
value 99999 is below 100000), while "0100000" is 7 characters yet is
accepted (it parses as the in-range value 100000). -/
theorem twofa_code_not_six_ascii_digits :
    (spec_sixAsciiDigits "099999" = true ∧
      TwoFACode.parse "099999" = .error "Invalid email code") ∧
    (spec_sixAsciiDigits "0100000" = false ∧
      TwoFACode.parse "0100000" = .ok ⟨"0100000"⟩) := by
  exact ⟨⟨by decide, by decide⟩, ⟨by decide, by decide⟩⟩

/-- C8 (amended): `TwoFACode.parse` succeeds exactly when the input, after
an optional leading '+', is a non-empty string of ASCII digits whose
numeric value lies in 100000–999999 (so leading zeros and a '+' sign are
accepted and 6-digit strings below 100000 are rejected); the accepted code
stores the original string; and `LoginAttemptId.parse` succeeds exactly
when UUID parsing succeeds.  Both are validated at construction. -/
theorem twofa_code_construction_validation :
    (∀ s : String,
      (∃ c, TwoFACode.parse s = .ok c) ↔
        (stripPlus s.data ≠ [] ∧ (stripPlus s.data).all Char.isDigit = true ∧
          100000 ≤ digitsVal (stripPlus s.data) ∧
          digitsVal (stripPlus s.data) ≤ 999999)) ∧
    (∀ (s : String) (c : TwoFACode), TwoFACode.parse s = .ok c →
      c.value = s) ∧
    (∀ (uuidParse : String → Option String) (t : String),
      (∃ a, LoginAttemptId.parse uuidParse t = .ok a) ↔
        (uuidParse t).isSome = true) := by
  refine ⟨?_, ?_, ?_⟩
  · intro s
    constructor
    · rintro ⟨c, hc⟩
      unfold TwoFACode.parse rustParseU32 at hc
      by_cases h1 : (stripPlus s.data).isEmpty
      · simp [h1] at hc
      · by_cases h2 : (stripPlus s.data).all Char.isDigit
        · by_cases h3 : digitsVal (stripPlus s.data) < 2 ^ 32
          · simp only [h1, h2, h3, if_true, if_false, Bool.false_eq_true]
              at hc
            by_cases h4 : 100000 ≤ digitsVal (stripPlus s.data) ∧
                digitsVal (stripPlus s.data) ≤ 999999
            · refine ⟨?_, h2, h4.1, h4.2⟩
              intro hnil
              simp [hnil] at h1
            · simp [h4] at hc
          · have h3' : ¬ digitsVal (stripPlus s.data) < 4294967296 := by
              simpa using h3
            simp [h1, h2, h3, h3'] at hc
        · simp [h1, h2] at hc
    · rintro ⟨h1, h2, h3, h4⟩
      refine ⟨⟨s⟩, ?_⟩
      unfold TwoFACode.parse rustParseU32
      have h5 : digitsVal (stripPlus s.data) < 2 ^ 32 :=
        lt_of_le_of_lt h4 (by norm_num)
      have h1' : (stripPlus s.data).isEmpty = false := by
        cases hd : stripPlus s.data with
        | nil => exact absurd hd h1
        | cons a l => rfl
      have h5' : digitsVal (stripPlus s.data) < 4294967296 := by
        simpa using h5
      simp [h1', h2, h3, h4, h5, h5']
  · intro s c hc
    unfold TwoFACode.parse at hc
    cases hr : rustParseU32 s with
    | none => simp [hr] at hc
    | some v =>
      rw [hr] at hc
      by_cases h4 : 100000 ≤ v ∧ v ≤ 999999
      · simp [h4] at hc
        rw [← hc]
      · simp [h4] at hc
  · intro uuidParse t
    constructor
    · rintro ⟨a, ha⟩
      unfold LoginAttemptId.parse at ha
      cases h : uuidParse t with
      | none => simp [h] at ha
      | some u => simp [h]
    · intro h
      cases hu : uuidParse t with
      | none => simp [hu] at h
      | some u => exact ⟨⟨u⟩, by simp [LoginAttemptId.parse, hu]⟩

/-- C8 witness: the amended characterisation at concrete inputs: "123456"
is accepted and stored verbatim, and a parseable attempt identifier is
accepted. -/
theorem twofa_code_construction_validation_witness :
    (∃ c, TwoFACode.parse "123456" = .ok c) ∧
    (TwoFACode.mk "123456").value = "123456" ∧
    (∃ a, LoginAttemptId.parse (fun s => some s)
      "11111111-1111-1111-1111-111111111111" = .ok a) :=
  ⟨(twofa_code_construction_validation.1 "123456").mpr (by decide),
    twofa_code_construction_validation.2.1 "123456" ⟨"123456"⟩ (by decide),
    (twofa_code_construction_validation.2.2 (fun s => some s)
      "11111111-1111-1111-1111-111111111111").mpr (by decide)⟩

/-- C9: anti-enumeration collapse.  For any two credential-store states —
one where the identity is unknown (`validate_user` fails with
`UserNotFound`) and one where the password is wrong (`InvalidCredentials`)
— the login route produces the identical outward outcome
`IncorrectCredentials`, so the two runs are indistinguishable to the
caller. -/
theorem login_collapses_notfound_and_wrong_password :
    ∀ {σ : Type} (s₁ s₂ : HashmapUserStore)
      (add_code : σ → Email → LoginAttemptId → TwoFACode →
        σ × Except TwoFACodeStoreError Unit)
      (send_email : Email → String → String → Except Unit Unit)
      (generate_auth_cookie : Email → Option String)
      (fresh_id : LoginAttemptId) (fresh_code : TwoFACode) (codeStore : σ)
      (request : LoginRequest) (email : Email) (password : Password),
      Email.parse request.email = .ok email →
      Password.parse request.password = .ok password →
      s₁.validate_user email password = .error .userNotFound →
      s₂.validate_user email password = .error .invalidCredentials →
      login s₁.validate_user s₁.get_user add_code send_email
        generate_auth_cookie fresh_id fresh_code codeStore request
        = login s₂.validate_user s₂.get_user add_code send_email
          generate_auth_cookie fresh_id fresh_code codeStore request ∧
      login s₁.validate_user s₁.get_user add_code send_email
        generate_auth_cookie fresh_id fresh_code codeStore request
        = (codeStore, .error .incorrectCredentials) := by
  intro σ s₁ s₂ ac se gac fi fc cs req email password he hp hv₁ hv₂
  have h₁ := login_of_validate_error s₁.validate_user s₁.get_user ac se gac
    fi fc cs req email password .userNotFound he hp hv₁
  have h₂ := login_of_validate_error s₂.validate_user s₂.get_user ac se gac
    fi fc cs req email password .invalidCredentials he hp hv₂
  exact ⟨h₁.trans h₂.symm, h₁⟩

/-- C9 witness: a run against an empty store (identity unknown) and a run
against a store holding the identity with a different password produce the
same login outcome. -/
theorem login_collapses_witness :
    login (HashmapUserStore.mk []).validate_user
      (HashmapUserStore.mk []).get_user
      (fun (s : Unit) _ _ _ => (s, .ok ())) (fun _ _ _ => .ok ())
      (fun _ => some "cookie") ⟨"id0"⟩ ⟨"123456"⟩ ()
      ⟨"a@x.com", "password123"⟩
      = login (HashmapUserStore.mk [(⟨"a@x.com"⟩,
          ⟨⟨"a@x.com"⟩, ⟨"different1"⟩, false⟩)]).validate_user
        (HashmapUserStore.mk [(⟨"a@x.com"⟩,
          ⟨⟨"a@x.com"⟩, ⟨"different1"⟩, false⟩)]).get_user
        (fun (s : Unit) _ _ _ => (s, .ok ())) (fun _ _ _ => .ok ())
        (fun _ => some "cookie") ⟨"id0"⟩ ⟨"123456"⟩ ()
        ⟨"a@x.com", "password123"⟩ :=
  (login_collapses_notfound_and_wrong_password ⟨[]⟩
    ⟨[(⟨"a@x.com"⟩, ⟨⟨"a@x.com"⟩, ⟨"different1"⟩, false⟩)]⟩
    (fun (s : Unit) _ _ _ => (s, .ok ())) (fun _ _ _ => .ok ())
    (fun _ => some "cookie") ⟨"id0"⟩ ⟨"123456"⟩ ()
    ⟨"a@x.com", "password123"⟩ ⟨"a@x.com"⟩ ⟨"password123"⟩
    (by decide) (by decide) (by decide) (by decide)).1

/-- C10: logout revocation cannot fail.  `HashsetBannedTokenStore.add_token`
returns `Ok` for every token and store state, and consequently the
`unwrap()` the logout flow performs on the revocation result after
successful token validation never fires: no run of `logout` reaches the
`panicked` outcome. -/
theorem logout_revocation_never_panics :
    (∀ (s : HashsetBannedTokenStore) (t : String),
      (HashsetBannedTokenStore.add_token s t).2 = .ok ()) ∧
    ∀ (decode : String → Except String Claims)
      (banned : HashsetBannedTokenStore) (cookie : Option String),
      (logout decode banned cookie).2 ≠ LogoutResult.panicked := by
  refine ⟨fun s t => rfl, ?_⟩
  intro decode banned cookie
  cases cookie with
  | none => simp [logout]
  | some token =>
    simp only [logout]
    cases h : validate_token banned.contains_token decode token with
    | error e => simp
    | ok c => simp [HashsetBannedTokenStore.add_token]

end AuthService
